import Mathlib

/-!
Shallow embedding of the `ServiceLocator` registry from `src/index.ts`.

The registry wraps a JavaScript `Map<string, any>` named `services`.
We model the map as an association list with JS `Map` semantics:
`set` replaces the value in place when the key is present (keeping
insertion order) and appends otherwise; `has` and `get` look the key up
without mutating.  Each registry operation is embedded as a function
returning the outcome of the operation (an `Except String` value, mirroring
the fact that a TypeScript method may throw an `Error` whose payload is
its message string) together with the registry state after the call.
`register` additionally yields the optional `console.warn` message it
emits when overwriting, modelled as data rather than as an I/O effect.
The private static field `ServiceLocator.instance` backing
`getInstance` is modelled as an `Option`-valued slot.
-/

namespace TsServiceLocator

/-- JS `Map.prototype.has` on an association list: true iff some entry has the key. -/
def JsMap.has {V : Type} : List (String × V) → String → Bool
  | [], _ => false
  | e :: rest, k => e.1 == k || JsMap.has rest k

/-- JS `Map.prototype.get` on an association list: the first value stored
under the key, or `none` (JS `undefined`) when the key is absent. -/
def JsMap.get? {V : Type} : List (String × V) → String → Option V
  | [], _ => none
  | e :: rest, k => if e.1 == k then some e.2 else JsMap.get? rest k

/-- JS `Map.prototype.set` on an association list: replaces the value in
place when the key is present, appends a fresh entry otherwise. -/
def JsMap.set {V : Type} : List (String × V) → String → V → List (String × V)
  | [], k, v => [(k, v)]
  | e :: rest, k, v => if e.1 == k then (k, v) :: rest else e :: JsMap.set rest k v

theorem JsMap.has_set_self {V : Type} (m : List (String × V)) (k : String) (v : V) :
    JsMap.has (JsMap.set m k v) k = true := by
  induction m with
  | nil => simp [JsMap.set, JsMap.has]
  | cons e rest ih =>
    by_cases h : e.1 = k
    · simp [JsMap.set, JsMap.has, h]
    · simp [JsMap.set, JsMap.has, h, ih]

theorem JsMap.get_set_self {V : Type} (m : List (String × V)) (k : String) (v : V) :
    JsMap.get? (JsMap.set m k v) k = some v := by
  induction m with
  | nil => simp [JsMap.set, JsMap.get?]
  | cons e rest ih =>
    by_cases h : e.1 = k
    · simp [JsMap.set, JsMap.get?, h]
    · simp [JsMap.set, JsMap.get?, h, ih]

theorem JsMap.has_set_ne {V : Type} (m : List (String × V)) (k k2 : String) (v : V)
    (h : k ≠ k2) : JsMap.has (JsMap.set m k2 v) k = JsMap.has m k := by
  induction m with
  | nil => simp [JsMap.set, JsMap.has, Ne.symm h]
  | cons e rest ih =>
    by_cases h2 : e.1 = k2
    · simp [JsMap.set, JsMap.has, h2, Ne.symm h]
    · simp [JsMap.set, JsMap.has, h2, ih]

theorem JsMap.get_set_ne {V : Type} (m : List (String × V)) (k k2 : String) (v : V)
    (h : k ≠ k2) : JsMap.get? (JsMap.set m k2 v) k = JsMap.get? m k := by
  induction m with
  | nil => simp [JsMap.set, JsMap.get?, Ne.symm h]
  | cons e rest ih =>
    by_cases h2 : e.1 = k2
    · simp [JsMap.set, JsMap.get?, h2, Ne.symm h]
    · simp [JsMap.set, JsMap.get?, h2, ih]

theorem JsMap.has_set_of_has {V : Type} (m : List (String × V)) (k k2 : String) (v : V)
    (h : JsMap.has m k = true) : JsMap.has (JsMap.set m k2 v) k = true := by
  by_cases hk : k = k2
  · subst hk; exact JsMap.has_set_self m k v
  · rw [JsMap.has_set_ne m k k2 v hk]; exact h

theorem JsMap.has_eq_isSome {V : Type} (m : List (String × V)) (k : String) :
    JsMap.has m k = (JsMap.get? m k).isSome := by
  induction m with
  | nil => simp [JsMap.has, JsMap.get?]
  | cons e rest ih =>
    by_cases h : e.1 = k
    · simp [JsMap.has, JsMap.get?, h]
    · simp [JsMap.has, JsMap.get?, h, ih]

/-- The registry state: the private `services` map of the `ServiceLocator` class. -/
structure ServiceLocator (V : Type) where
  services : List (String × V)
deriving DecidableEq

/-- `new ServiceLocator()`: the private constructor yields an empty `services` map. -/
def ServiceLocator.empty {V : Type} : ServiceLocator V := ⟨[]⟩

/-- The message of the `Error` thrown by `get` for an absent key:
`Service with key ...` followed by the key in single quotes and `not found.` -/
def notFoundMsg (key : String) : String :=
  "Service with key \x27" ++ key ++ "\x27 not found."

/-- The `console.warn` message emitted by `register` when overwriting: the
key in single quotes between `Service with key` and `is already registered.
Overwriting.` -/
def overwriteWarning (key : String) : String :=
  "Service with key \x27" ++ key ++ "\x27 is already registered. Overwriting."

/-- `register(key, instance)`: warns (without interrupting) when the key is
already present, then stores the instance.  The first component is the
outcome — always `ok`, since the body contains no `throw`, carrying the
optional warning text — and the second is the state after the call. -/
def ServiceLocator.register {V : Type} (r : ServiceLocator V) (key : String) (v : V) :
    Except String (Option String) × ServiceLocator V :=
  (Except.ok (if JsMap.has r.services key then some (overwriteWarning key) else none),
   ⟨JsMap.set r.services key v⟩)

/-- `get(key)`: throws `Error` with `notFoundMsg key` when `services.has(key)`
is false, otherwise returns `services.get(key)`.  The inner `none` branch is
unreachable (`JsMap.has_eq_isSome`): it corresponds to the unchecked
`as T` cast of JS `undefined`, which the `has` guard rules out. -/
def ServiceLocator.get {V : Type} (r : ServiceLocator V) (key : String) :
    Except String V × ServiceLocator V :=
  if JsMap.has r.services key then
    match JsMap.get? r.services key with
    | some v => (Except.ok v, r)
    | none => (Except.error (notFoundMsg key), r)
  else
    (Except.error (notFoundMsg key), r)

/-- `has(key)`: returns `services.has(key)`; never throws, never mutates. -/
def ServiceLocator.has {V : Type} (r : ServiceLocator V) (key : String) :
    Except String Bool × ServiceLocator V :=
  (Except.ok (JsMap.has r.services key), r)

/-- `ServiceLocator.getInstance()`: the private static field
`ServiceLocator.instance` is modelled as an `Option`-valued slot.  When the
slot is empty the constructor runs and fills it; the returned registry is
the very object the slot holds, so mutating the returned reference mutates
the content of the slot. -/
def getInstance {V : Type} (slot : Option (ServiceLocator V)) :
    ServiceLocator V × Option (ServiceLocator V) :=
  match slot with
  | none => (ServiceLocator.empty, some ServiceLocator.empty)
  | some r => (r, some r)

/-- One call against the registry interface, used to quantify over
arbitrary sequences of operations. -/
inductive Op (V : Type) where
  | register : String → V → Op V
  | get : String → Op V
  | has : String → Op V

/-- The registry state after one interface call. -/
def ServiceLocator.applyOp {V : Type} (r : ServiceLocator V) : Op V → ServiceLocator V
  | Op.register k v => (r.register k v).2
  | Op.get k => (r.get k).2
  | Op.has k => (r.has k).2

/-- The registry state after a sequence of interface calls. -/
def ServiceLocator.runOps {V : Type} (r : ServiceLocator V) : List (Op V) → ServiceLocator V
  | [] => r
  | op :: rest => (r.applyOp op).runOps rest

/-- Whether an operation is a `register` call with the given key. -/
def Op.registersKey {V : Type} (k : String) : Op V → Bool
  | Op.register k2 _ => k2 == k
  | _ => false

theorem ServiceLocator.get_snd {V : Type} (r : ServiceLocator V) (k : String) :
    (r.get k).2 = r := by
  unfold ServiceLocator.get
  split
  · split <;> rfl
  · rfl

theorem ServiceLocator.has_snd {V : Type} (r : ServiceLocator V) (k : String) :
    (r.has k).2 = r := rfl

theorem ServiceLocator.get_fst_of_get_eq {V : Type} (r : ServiceLocator V) (k : String)
    (v : V) (h : JsMap.get? r.services k = some v) : (r.get k).1 = Except.ok v := by
  unfold ServiceLocator.get
  rw [JsMap.has_eq_isSome, h]
  simp

theorem ServiceLocator.get_fst_of_absent {V : Type} (r : ServiceLocator V) (k : String)
    (h : JsMap.has r.services k = false) : (r.get k).1 = Except.error (notFoundMsg k) := by
  unfold ServiceLocator.get
  rw [h]
  simp

theorem ServiceLocator.has_runOps_of_no_register {V : Type} (ops : List (Op V))
    (k : String) (r : ServiceLocator V)
    (hops : ∀ op ∈ ops, Op.registersKey k op = false)
    (h : JsMap.has r.services k = false) :
    JsMap.has (r.runOps ops).services k = false := by
  induction ops generalizing r with
  | nil => exact h
  | cons op rest ih =>
    have hop : Op.registersKey k op = false := hops op (List.mem_cons_self op rest)
    have hrest : ∀ op2 ∈ rest, Op.registersKey k op2 = false :=
      fun op2 hm => hops op2 (List.mem_cons_of_mem op hm)
    cases op with
    | register k2 v =>
      refine ih _ hrest ?_
      have hne : k ≠ k2 := by
        intro he
        simp [Op.registersKey, he] at hop
      show JsMap.has (JsMap.set r.services k2 v) k = false
      rw [JsMap.has_set_ne r.services k k2 v hne]
      exact h
    | get k2 =>
      refine ih _ hrest ?_
      show JsMap.has (r.get k2).2.services k = false
      rw [ServiceLocator.get_snd]
      exact h
    | has k2 => exact ih _ hrest h

theorem ServiceLocator.has_runOps_mono {V : Type} (ops : List (Op V))
    (r : ServiceLocator V) (k : String)
    (h : JsMap.has r.services k = true) :
    JsMap.has (r.runOps ops).services k = true := by
  induction ops generalizing r with
  | nil => exact h
  | cons op rest ih =>
    cases op with
    | register k2 v => exact ih _ (JsMap.has_set_of_has r.services k k2 v h)
    | get k2 =>
      refine ih _ ?_
      show JsMap.has (r.get k2).2.services k = true
      rw [ServiceLocator.get_snd]
      exact h
    | has k2 => exact ih _ h

/-- C1: for every key `k` and value `v`, after `register(k, v)` the registry
answers `has(k) = true` and `get(k)` returns exactly the registered
instance `v` (the embedding stores and returns the value unchanged, as the
JS `Map` stores and returns the reference unchanged). -/
theorem c1_register_then_has_and_get {V : Type} (r : ServiceLocator V) (k : String) (v : V) :
    (((r.register k v).2).has k).1 = Except.ok true ∧
    (((r.register k v).2).get k).1 = Except.ok v := by
  constructor
  · simp [ServiceLocator.register, ServiceLocator.has, JsMap.has_set_self]
  · exact ServiceLocator.get_fst_of_get_eq _ k v (JsMap.get_set_self r.services k v)

/-- C2: for every key `k` that was never registered — any operation sequence
from the fresh registry containing no `register` with key `k` — `has(k)`
returns false and `get(k)` throws an error whose message carries `k`. -/
theorem c2_never_registered_key {V : Type} (ops : List (Op V)) (k : String)
    (hops : ∀ op ∈ ops, Op.registersKey k op = false) :
    (((ServiceLocator.empty : ServiceLocator V).runOps ops).has k).1 = Except.ok false ∧
    (((ServiceLocator.empty : ServiceLocator V).runOps ops).get k).1 =
      Except.error (notFoundMsg k) ∧
    ∃ a b, notFoundMsg k = a ++ k ++ b := by
  have habs : JsMap.has ((ServiceLocator.empty : ServiceLocator V).runOps ops).services k
      = false :=
    ServiceLocator.has_runOps_of_no_register ops k ServiceLocator.empty hops rfl
  refine ⟨?_, ServiceLocator.get_fst_of_absent _ k habs, "Service with key \x27",
    "\x27 not found.", rfl⟩
  simp [ServiceLocator.has, habs]

/-- C2 witness: on a registry where only `"Logger"` was registered,
`"Missing"` was never registered, so `has` is false and `get` fails. -/
theorem c2_never_registered_key_witness :
    (((ServiceLocator.empty : ServiceLocator Nat).runOps
        [Op.register "Logger" 1, Op.has "Missing", Op.get "Missing"]).has "Missing").1 =
      Except.ok false ∧
    (((ServiceLocator.empty : ServiceLocator Nat).runOps
        [Op.register "Logger" 1, Op.has "Missing", Op.get "Missing"]).get "Missing").1 =
      Except.error (notFoundMsg "Missing") ∧
    ∃ a b, notFoundMsg "Missing" = a ++ "Missing" ++ b :=
  c2_never_registered_key _ "Missing" (by decide)

/-- C3: registering `v1` then `v2` under the same key makes `get` return
`v2` (last-write-wins), while the second `register` emits the non-fatal
overwrite warning and still completes (its outcome is `ok`). -/
theorem c3_last_write_wins {V : Type} (r : ServiceLocator V) (k : String) (v1 v2 : V) :
    ((((r.register k v1).2.register k v2).2).get k).1 = Except.ok v2 ∧
    ((r.register k v1).2.register k v2).1 = Except.ok (some (overwriteWarning k)) := by
  constructor
  · exact ServiceLocator.get_fst_of_get_eq _ k v2 (JsMap.get_set_self _ k v2)
  · simp [ServiceLocator.register, JsMap.has_set_self]

/-- C4: when `get(k)` fails because `has(k)` is false, the surfaced error
message contains the missing key `k` as a substring. -/
theorem c4_error_message_carries_key {V : Type} (r : ServiceLocator V) (k : String)
    (h : (r.has k).1 = Except.ok false) :
    ∃ a b, (r.get k).1 = Except.error (a ++ k ++ b) := by
  have hb : JsMap.has r.services k = false := by
    simpa [ServiceLocator.has] using h
  exact ⟨"Service with key \x27", "\x27 not found.",
    by rw [ServiceLocator.get_fst_of_absent r k hb]; rfl⟩

/-- C4 witness: `get("Missing")` on a registry without `"Missing"` fails
with a message containing `"Missing"`. -/
theorem c4_error_message_carries_key_witness :
    ((ServiceLocator.empty : ServiceLocator Nat).has "Missing").1 = Except.ok false ∧
    ∃ a b, ((ServiceLocator.empty : ServiceLocator Nat).get "Missing").1 =
      Except.error (a ++ "Missing" ++ b) :=
  ⟨rfl, c4_error_message_carries_key ServiceLocator.empty "Missing" rfl⟩

/-- C5: `getInstance` is idempotent and never fails: the slot afterwards
holds exactly the returned instance, a second call returns the identical
instance and leaves the slot unchanged, and a registration performed
through the returned reference (which aliases the slot) is visible through
the instance the next `getInstance` call returns. -/
theorem c5_getInstance_singleton {V : Type} (s : Option (ServiceLocator V))
    (k : String) (v : V) :
    (getInstance s).2 = some (getInstance s).1 ∧
    getInstance ((getInstance s).2) = ((getInstance s).1, (getInstance s).2) ∧
    ((getInstance (some ((getInstance s).1.register k v).2)).1.has k).1 = Except.ok true := by
  cases s <;>
    simp [getInstance, ServiceLocator.register, ServiceLocator.has, JsMap.has_set_self]

/-- C6: keys are never removed — once `has(k)` is true it stays true after
any sequence of `register`, `get` and `has` calls; `register` only moves a
key from absent to present or from present to present. -/
theorem c6_keys_never_removed {V : Type} (r : ServiceLocator V) (k : String)
    (ops : List (Op V)) (h : (r.has k).1 = Except.ok true) :
    ((r.runOps ops).has k).1 = Except.ok true := by
  have hb : JsMap.has r.services k = true := by
    simpa [ServiceLocator.has] using h
  simp [ServiceLocator.has, ServiceLocator.has_runOps_mono ops r k hb]

/-- C6 witness: `"Logger"` stays present across registrations of other keys,
lookups, failing lookups, and an overwrite of `"Logger"` itself. -/
theorem c6_keys_never_removed_witness :
    ((((ServiceLocator.empty : ServiceLocator Nat).register "Logger" 1).2).has "Logger").1 =
      Except.ok true ∧
    (((((ServiceLocator.empty : ServiceLocator Nat).register "Logger" 1).2).runOps
        [Op.register "Api" 2, Op.get "Logger", Op.has "Missing", Op.get "Missing",
         Op.register "Logger" 3]).has "Logger").1 = Except.ok true :=
  ⟨rfl, c6_keys_never_removed _ "Logger" _ rfl⟩

/-- C7: `get` and `has` have no side effects — both return the registry
state unchanged (also when `get` fails), and repeating `has(k)` any number
of times without an intervening `register` changes neither the state nor
the answer. -/
theorem c7_get_has_no_side_effects {V : Type} (r : ServiceLocator V) (k : String) (n : Nat) :
    (r.get k).2 = r ∧ (r.has k).2 = r ∧
    r.runOps (List.replicate n (Op.has k)) = r ∧
    ((r.runOps (List.replicate n (Op.has k))).has k).1 = (r.has k).1 := by
  have hrep : r.runOps (List.replicate n (Op.has k)) = r := by
    induction n with
    | zero => rfl
    | succ m ih => exact ih
  exact ⟨ServiceLocator.get_snd r k, rfl, hrep, by rw [hrep]⟩

/-- C8: `register` and `has` never fail — their outcomes are always `ok`,
and the overwrite warning does not interrupt `register` (the new binding is
installed regardless); the only failing operation is `get`, which fails
exactly when the key is absent. -/
theorem c8_only_get_fails {V : Type} (r : ServiceLocator V) (k k2 : String) (v : V) :
    (r.register k v).1.isOk = true ∧
    (r.has k2).1.isOk = true ∧
    (((r.register k v).2).get k).1 = Except.ok v ∧
    ((r.get k2).1.isOk = true ↔ (r.has k2).1 = Except.ok true) := by
  refine ⟨rfl, rfl,
    ServiceLocator.get_fst_of_get_eq _ k v (JsMap.get_set_self r.services k v), ?_⟩
  cases hb : JsMap.has r.services k2 with
  | false =>
    rw [ServiceLocator.get_fst_of_absent r k2 hb]
    simp [ServiceLocator.has, hb, Except.isOk, Except.toBool]
  | true =>
    have hsome : (JsMap.get? r.services k2).isSome = true := by
      rw [← JsMap.has_eq_isSome]
      exact hb
    obtain ⟨v2, hv2⟩ := Option.isSome_iff_exists.mp hsome
    rw [ServiceLocator.get_fst_of_get_eq r k2 v2 hv2]
    simp [ServiceLocator.has, hb, Except.isOk, Except.toBool]

/-- C9: registering one key does not disturb any other key — for distinct
keys, `register(k2, v2)` leaves both the `has(k1)` answer and the `get(k1)`
outcome (the stored instance, or the failure) exactly as before. -/
theorem c9_register_other_key_frame {V : Type} (r : ServiceLocator V) (k1 k2 : String)
    (v2 : V) (h : k1 ≠ k2) :
    (((r.register k2 v2).2).has k1).1 = (r.has k1).1 ∧
    (((r.register k2 v2).2).get k1).1 = (r.get k1).1 := by
  constructor
  · show Except.ok (JsMap.has (JsMap.set r.services k2 v2) k1) = _
    rw [JsMap.has_set_ne r.services k1 k2 v2 h]
    rfl
  · rw [show (r.register k2 v2).2 = (⟨JsMap.set r.services k2 v2⟩ : ServiceLocator V)
          from rfl]
    cases hb : JsMap.has r.services k1 with
    | false =>
      have hb2 : JsMap.has (JsMap.set r.services k2 v2) k1 = false := by
        rw [JsMap.has_set_ne r.services k1 k2 v2 h]
        exact hb
      rw [ServiceLocator.get_fst_of_absent r k1 hb,
          ServiceLocator.get_fst_of_absent ⟨JsMap.set r.services k2 v2⟩ k1 hb2]
    | true =>
      have hsome : (JsMap.get? r.services k1).isSome = true := by
        rw [← JsMap.has_eq_isSome]
        exact hb
      obtain ⟨v1, hv1⟩ := Option.isSome_iff_exists.mp hsome
      have hv1b : JsMap.get? (JsMap.set r.services k2 v2) k1 = some v1 := by
        rw [JsMap.get_set_ne r.services k1 k2 v2 h]
        exact hv1
      rw [ServiceLocator.get_fst_of_get_eq r k1 v1 hv1,
          ServiceLocator.get_fst_of_get_eq ⟨JsMap.set r.services k2 v2⟩ k1 v1 hv1b]

/-- C9 witness: registering `"Api"` leaves the absent key `"Logger"`
untouched: `has` still answers false and `get` still fails the same way. -/
theorem c9_register_other_key_frame_witness :
    ("Logger" : String) ≠ "Api" ∧
    ((((ServiceLocator.empty : ServiceLocator Nat).register "Api" 2).2).has "Logger").1 =
      ((ServiceLocator.empty : ServiceLocator Nat).has "Logger").1 ∧
    ((((ServiceLocator.empty : ServiceLocator Nat).register "Api" 2).2).get "Logger").1 =
      ((ServiceLocator.empty : ServiceLocator Nat).get "Logger").1 :=
  ⟨by decide, (c9_register_other_key_frame _ "Logger" "Api" 2 (by decide)).1,
   (c9_register_other_key_frame _ "Logger" "Api" 2 (by decide)).2⟩

/-- C10: the empty string is an ordinary key — `register("", v)` completes
without error, after which `has("")` is true and `get("")` returns `v`,
exactly as for any other key (no special-casing anywhere in the code). -/
theorem c10_empty_string_key {V : Type} (r : ServiceLocator V) (v : V) :
    (r.register "" v).1.isOk = true ∧
    (((r.register "" v).2).has "").1 = Except.ok true ∧
    (((r.register "" v).2).get "").1 = Except.ok v := by
  refine ⟨rfl, ?_,
    ServiceLocator.get_fst_of_get_eq _ "" v (JsMap.get_set_self r.services "" v)⟩
  simp [ServiceLocator.register, ServiceLocator.has, JsMap.has_set_self]

end TsServiceLocator
